import Mathlib

/-!
Verification of the DataFrame cell-mapping layer of the streamlit frontend
(src/frontend/src/components/widgets/DataFrame/DataFrameCells.tsx and
DataFrame.tsx), shallowly embedded in Lean.

JavaScript numbers are modelled as an inductive wrapping exact rationals
together with the special values NaN and the two infinities; JS runtime
values (null, undefined, booleans, strings, numbers, arrays, arrow vectors,
Int32Arrays) are modelled by the inductive JSVal.  Builtin conversions
(Number(), String(), JSON round-trips) are external to the repository and
are modelled by small Lean functions on these inductives, documented at
each definition.
-/

/-- A JavaScript number: an exact rational, NaN, or a signed infinity
(`neg = true` is negative infinity). -/
inductive JSNum where
  | val (q : ℚ)
  | nan
  | inf (neg : Bool)
deriving DecidableEq

/-- A scalar JavaScript value: the element shapes that the cell code ever
reads out of an array (the claims never exercise arrays nested inside
arrays, so array elements are modelled one level deep). -/
inductive JSPrim where
  | null
  | undef
  | bool (b : Bool)
  | str (s : String)
  | num (n : JSNum)
deriving DecidableEq

/-- A JavaScript runtime value, covering the shapes the DataFrame cell code
inspects: null, undefined, booleans, strings, numbers, plain arrays, arrow
Vectors (which expose toArray) and Int32Arrays. -/
inductive JSVal where
  | null
  | undef
  | bool (b : Bool)
  | str (s : String)
  | num (n : JSNum)
  | arr (vs : List JSPrim)
  | vector (vs : List JSPrim)
  | int32 (xs : List Int)
deriving DecidableEq

/-- Models the helper notNullOrUndefined from src/lib/utils (outside this
excerpt): true iff the value is neither null nor undefined. -/
def notNullOrUndefined : JSVal → Bool
  | JSVal.null => false
  | JSVal.undef => false
  | _ => true

def JSVal.isBool : JSVal → Bool
  | JSVal.bool _ => true
  | _ => false

def JSVal.isString : JSVal → Bool
  | JSVal.str _ => true
  | _ => false

def JSVal.isNumber : JSVal → Bool
  | JSVal.num _ => true
  | _ => false

def JSNum.isNaN : JSNum → Bool
  | JSNum.nan => true
  | _ => false

/-- JS strict less-than on numbers: any comparison with NaN is false. -/
def jlt : JSNum → JSNum → Bool
  | JSNum.nan, _ => false
  | _, JSNum.nan => false
  | JSNum.val a, JSNum.val b => a < b
  | JSNum.inf n, JSNum.inf m => n && !m
  | JSNum.inf n, JSNum.val _ => n
  | JSNum.val _, JSNum.inf m => !m

/-- JS strict greater-than on numbers. -/
def jgt (a b : JSNum) : Bool := jlt b a

/-- JS subtraction on numbers. -/
def jsub : JSNum → JSNum → JSNum
  | JSNum.nan, _ => JSNum.nan
  | _, JSNum.nan => JSNum.nan
  | JSNum.val a, JSNum.val b => JSNum.val (a - b)
  | JSNum.inf n, JSNum.val _ => JSNum.inf n
  | JSNum.val _, JSNum.inf m => JSNum.inf (!m)
  | JSNum.inf n, JSNum.inf m => if n = m then JSNum.nan else JSNum.inf n

/-- JS multiplication on numbers. -/
def jmul : JSNum → JSNum → JSNum
  | JSNum.nan, _ => JSNum.nan
  | _, JSNum.nan => JSNum.nan
  | JSNum.val a, JSNum.val b => JSNum.val (a * b)
  | JSNum.inf n, JSNum.val b =>
      if b = 0 then JSNum.nan else JSNum.inf (xor n (decide (b < 0)))
  | JSNum.val a, JSNum.inf m =>
      if a = 0 then JSNum.nan else JSNum.inf (xor m (decide (a < 0)))
  | JSNum.inf n, JSNum.inf m => JSNum.inf (xor n m)

/-- JS division on numbers: 0/0 is NaN, x/0 for x not 0 is a signed
infinity, finite/infinite is 0. -/
def jdiv : JSNum → JSNum → JSNum
  | JSNum.nan, _ => JSNum.nan
  | _, JSNum.nan => JSNum.nan
  | JSNum.val a, JSNum.val b =>
      if b = 0 then (if a = 0 then JSNum.nan else JSNum.inf (decide (a < 0)))
      else JSNum.val (a / b)
  | JSNum.inf n, JSNum.val b => JSNum.inf (xor n (decide (b < 0)))
  | JSNum.val _, JSNum.inf _ => JSNum.val 0
  | JSNum.inf n, JSNum.inf _ => JSNum.inf n

/-- JS Math.round: rounds half toward positive infinity. -/
def roundJS (q : ℚ) : Int := ⌊q + 1 / 2⌋

/-- JS Math.round lifted to the number model. -/
def jround : JSNum → JSNum
  | JSNum.val q => JSNum.val (roundJS q)
  | x => x

/-- Models the JS number-to-string conversion for the values exercised here:
integers print as decimal integers; the model prints a non-integral rational
as a fraction (JS would print a decimal expansion, which no claim relies
on). -/
def jsNumToString : JSNum → String
  | JSNum.nan => "NaN"
  | JSNum.inf neg => if neg then "-Infinity" else "Infinity"
  | JSNum.val q =>
      if q.den = 1 then toString q.num
      else toString q.num ++ "/" ++ toString q.den

/-!  Kernel-computable string helpers.  The JS string builtins the source
calls (toLowerCase, trim, startsWith, replace) are modelled over the
character list of the string, so that concrete witnesses evaluate inside
the kernel. -/

/-- An ASCII whitespace character (the characters the inputs here can
contain). -/
def isSpaceChar (c : Char) : Bool :=
  c = ' ' ∨ c = '\t' ∨ c = '\n' ∨ c = '\r'

/-- An ASCII decimal digit. -/
def isDigitChar (c : Char) : Bool :=
  48 ≤ c.toNat ∧ c.toNat ≤ 57

/-- ASCII lowercasing of one character (the type names and configuration
strings compared here are ASCII). -/
def charToLower (c : Char) : Char :=
  if 65 ≤ c.toNat ∧ c.toNat ≤ 90 then Char.ofNat (c.toNat + 32) else c

/-- Models String.prototype.toLowerCase. -/
def jsToLower (s : String) : String :=
  String.mk (s.data.map charToLower)

/-- Models String.prototype.trim. -/
def jsTrim (s : String) : String :=
  String.mk
    ((((s.data.dropWhile isSpaceChar).reverse.dropWhile isSpaceChar).reverse))

/-- Models String.prototype.startsWith. -/
def jsStartsWith (s p : String) : Bool :=
  p.data.isPrefixOf s.data

/-- One pass of global substring replacement over a character list, with
explicit fuel (the length of the list) for structural recursion. -/
def replaceAux (pat rep : List Char) : Nat → List Char → List Char
  | _, [] => []
  | 0, l => l
  | fuel + 1, c :: rest =>
    if pat ≠ [] ∧ pat.isPrefixOf (c :: rest) then
      rep ++ replaceAux pat rep fuel ((c :: rest).drop pat.length)
    else c :: replaceAux pat rep fuel rest

/-- Models String.prototype.replace with a global pattern. -/
def jsReplace (s pat rep : String) : String :=
  String.mk (replaceAux pat.data rep.data s.data.length s.data)

/-- Models the JS Number(string) conversion for the simple literals
exercised here: after trimming, the empty string is 0, an optional sign
followed by decimal digits is that integer, and anything else is NaN
(fractional literals, exponents and special words are not modelled; the
claims only ever convert integral or non-numeric strings). -/
def strToNum (s : String) : JSNum :=
  let t := jsTrim s
  if t = "" then JSNum.val 0
  else
    let core :=
      if jsStartsWith t "-" || jsStartsWith t "+" then String.mk (t.data.drop 1)
      else t
    let neg := jsStartsWith t "-"
    if core = "" then JSNum.nan
    else if core.data.all isDigitChar then
      let n : Nat := core.data.foldl (fun a c => a * 10 + (c.toNat - 48)) 0
      JSNum.val (if neg then -(n : ℚ) else (n : ℚ))
    else JSNum.nan

/-- Models the JS Number() coercion on a scalar. -/
def primToNum : JSPrim → JSNum
  | JSPrim.null => JSNum.val 0
  | JSPrim.undef => JSNum.nan
  | JSPrim.bool b => JSNum.val (if b then 1 else 0)
  | JSPrim.num n => n
  | JSPrim.str s => strToNum s

/-- Models the JS Number() coercion on the modelled values.  Arrays and
typed arrays coerce via their string form; the model keeps the one-element
cases the code can reach (empty array is 0, a one-element array coerces as
its element does in the cases used, anything longer is NaN). -/
def toNumber : JSVal → JSNum
  | JSVal.null => JSNum.val 0
  | JSVal.undef => JSNum.nan
  | JSVal.bool b => JSNum.val (if b then 1 else 0)
  | JSVal.num n => n
  | JSVal.str s => strToNum s
  | JSVal.arr [] => JSNum.val 0
  | JSVal.arr [p] => primToNum p
  | JSVal.arr _ => JSNum.nan
  | JSVal.vector _ => JSNum.nan
  | JSVal.int32 [] => JSNum.val 0
  | JSVal.int32 [x] => JSNum.val x
  | JSVal.int32 _ => JSNum.nan

/-- Models the JS String() conversion for a value standing alone inside an
array (null and undefined print as the empty string there). -/
def jsElemToString : JSPrim → String
  | JSPrim.null => ""
  | JSPrim.undef => ""
  | JSPrim.bool b => if b then "true" else "false"
  | JSPrim.str s => s
  | JSPrim.num n => jsNumToString n

/-- Models the JS String() conversion on the modelled values. -/
def jsValToString : JSVal → String
  | JSVal.null => "null"
  | JSVal.undef => "undefined"
  | JSVal.bool b => if b then "true" else "false"
  | JSVal.str s => s
  | JSVal.num n => jsNumToString n
  | JSVal.arr vs => String.intercalate "," (vs.map jsElemToString)
  | JSVal.vector vs => String.intercalate "," (vs.map jsElemToString)
  | JSVal.int32 xs => String.intercalate "," (xs.map (fun x => toString x))

/-- Models JSON.stringify of one number (NaN and infinities serialize as
null). -/
def jsonNum : JSNum → String
  | JSNum.nan => "null"
  | JSNum.inf _ => "null"
  | JSNum.val q =>
      if q.den = 1 then toString q.num
      else toString q.num ++ "/" ++ toString q.den

/-- Models JSON.stringify of a number array. -/
def jsonNumList (xs : List JSNum) : String :=
  "[" ++ String.intercalate "," (xs.map jsonNum) ++ "]"

/-- Models the JSON.parse(JSON.stringify(data, bigint-to-number)) round
trip used by fillListCell: identity on the modelled values except that NaN
and the infinities become null (JSON cannot represent them). -/
def jsonRoundtrip : JSVal → JSVal
  | JSVal.num JSNum.nan => JSVal.null
  | JSVal.num (JSNum.inf _) => JSVal.null
  | v => v

/-!  The grid cell model (glide-data-grid cell objects as built by
DataFrameCells.tsx). -/

/-- The glide-data-grid cell kinds used by the code (enum GridCellKind). -/
inductive GridCellKind where
  | text
  | boolean
  | number
  | bubble
  | uri
  | image
  | loading
  | custom
deriving DecidableEq

/-- The runtime string value of a GridCellKind enum member. -/
def GridCellKind.str : GridCellKind → String
  | GridCellKind.text => "text"
  | GridCellKind.boolean => "boolean"
  | GridCellKind.number => "number"
  | GridCellKind.bubble => "bubble"
  | GridCellKind.uri => "uri"
  | GridCellKind.image => "image"
  | GridCellKind.loading => "loading"
  | GridCellKind.custom => "custom"

/-- The cell style: "faded" for index columns, "normal" otherwise. -/
inductive CellStyle where
  | normal
  | faded
deriving DecidableEq

/-- A theme override object attached to a cell (getErrorCell sets textDark,
applyPandasStylerCss may set textDark and bgCell). -/
structure ThemeOverride where
  textDark : Option String := Option.none
  bgCell : Option String := Option.none
deriving DecidableEq

/-- The data object of a Custom cell: a sparkline-cell or range-cell payload
(fields absent from a given template are Option.none). -/
structure CustomData where
  kind : Option String := Option.none
  values : List JSNum := []
  displayValues : Option (List JSNum) := Option.none
  graphKind : Option String := Option.none
  yAxis : Option (ℚ × ℚ) := Option.none
  min : Option JSNum := Option.none
  max : Option JSNum := Option.none
  value : Option JSNum := Option.none
  step : Option JSNum := Option.none
  label : Option String := Option.none
  measureLabel : Option String := Option.none
deriving DecidableEq

/-- The data (or displayData) field of a grid cell: a primitive value, an
array, a custom payload, or absent. -/
inductive CellData where
  | prim (v : JSVal)
  | list (vs : List JSPrim)
  | strings (ss : List String)
  | custom (d : CustomData)
  | nothing
deriving DecidableEq

/-- A glide-data-grid cell as built by this code, with every field the code
ever writes; fields a given cell object does not carry are Option.none (or
CellData.nothing). -/
structure GridCell where
  kind : GridCellKind
  data : CellData := CellData.nothing
  displayData : CellData := CellData.nothing
  allowOverlay : Bool := false
  readonly : Option Bool := Option.none
  style : Option CellStyle := Option.none
  contentAlign : Option String := Option.none
  allowAdd : Option Bool := Option.none
  copyData : Option String := Option.none
  themeOverride : Option ThemeOverride := Option.none
  lastUpdated : Bool := false
deriving DecidableEq

/-- The nine semantic column kinds (enum ColumnType). -/
inductive ColumnType where
  | text
  | number
  | boolean
  | list
  | url
  | image
  | barChart
  | lineChart
  | progressChart
deriving DecidableEq

/-- The runtime string value of a ColumnType enum member. -/
def ColumnType.str : ColumnType → String
  | ColumnType.text => "text"
  | ColumnType.number => "number"
  | ColumnType.boolean => "boolean"
  | ColumnType.list => "list"
  | ColumnType.url => "url"
  | ColumnType.image => "image"
  | ColumnType.barChart => "bar-chart"
  | ColumnType.lineChart => "line-chart"
  | ColumnType.progressChart => "progress-chart"

/-- Recovers the enum member whose runtime string is s, if any (the closed
set Object.values(ColumnType)). -/
def ColumnType.fromString (s : String) : Option ColumnType :=
  if s = "text" then some ColumnType.text
  else if s = "number" then some ColumnType.number
  else if s = "boolean" then some ColumnType.boolean
  else if s = "list" then some ColumnType.list
  else if s = "url" then some ColumnType.url
  else if s = "image" then some ColumnType.image
  else if s = "bar-chart" then some ColumnType.barChart
  else if s = "line-chart" then some ColumnType.lineChart
  else if s = "progress-chart" then some ColumnType.progressChart
  else Option.none

/-- The enum-membership match of getColumnTypeFromConfig on the lowercased
and trimmed name: a name among Object.values(ColumnType) is cast to that
member, anything else falls back to text. -/
def configTypeNameToColumnType (typeName : String) : ColumnType :=
  match ColumnType.fromString typeName with
  | some t => t
  | Option.none => ColumnType.text

/-- getColumnTypeFromConfig: maps the data type from column config to a
valid column type; a missing or empty (falsy) name falls back to text,
otherwise the lowercased and trimmed name is matched against the enum
values. -/
def getColumnTypeFromConfig (typeName : Option String) : ColumnType :=
  match typeName with
  | Option.none => ColumnType.text
  | some s =>
    if s = "" then ColumnType.text
    else configTypeNameToColumnType (jsTrim (jsToLower s))

/-- The Quiver column type descriptor.  Modelled from the spec: the quiver
reader (src/lib/Quiver, outside this excerpt) exposes Quiver.getTypeName,
which yields the column's declared type name (a pandas index type name or a
numpy dtype string), possibly missing. -/
structure QuiverType where
  typeName : Option String := Option.none
deriving DecidableEq

/-- The quiver-type branch chain of getColumnTypeFromQuiver on the
lowercased and trimmed name. -/
def quiverTypeNameToColumnType (typeName : String) : ColumnType :=
  if typeName = "unicode" then ColumnType.text
  else if typeName = "date" ∨ typeName = "datetime" ∨ typeName = "datetimetz" then
    ColumnType.text
  else if typeName = "bool" then ColumnType.boolean
  else if typeName = "int64" ∨ typeName = "float64" ∨ typeName = "range" then
    ColumnType.number
  else if jsStartsWith typeName "list" then ColumnType.list
  else ColumnType.text

/-- getColumnTypeFromQuiver: maps the data type from Quiver to a valid
column type; a missing or empty (falsy) name falls back to text. -/
def getColumnTypeFromQuiver (quiverType : QuiverType) : ColumnType :=
  match quiverType.typeName with
  | Option.none => ColumnType.text
  | some s =>
    if s = "" then ColumnType.text
    else quiverTypeNameToColumnType (jsTrim (jsToLower s))

/-- getCellTemplate: a template object representing an empty cell for the
given column type (the nine enum cases of the source switch). -/
def getCellTemplate (type : ColumnType) (readonly isIndex : Bool) : GridCell :=
  let style := if isIndex then CellStyle.faded else CellStyle.normal
  match type with
  | ColumnType.text =>
      { kind := GridCellKind.text, data := CellData.prim (JSVal.str ""),
        displayData := CellData.prim (JSVal.str ""), allowOverlay := true,
        readonly := some readonly, style := some style }
  | ColumnType.boolean =>
      { kind := GridCellKind.boolean, data := CellData.prim (JSVal.bool false),
        readonly := some readonly, allowOverlay := false, style := some style }
  | ColumnType.number =>
      { kind := GridCellKind.number, data := CellData.prim JSVal.undef,
        displayData := CellData.prim (JSVal.str ""), readonly := some readonly,
        allowOverlay := true, contentAlign := some "right", style := some style }
  | ColumnType.list =>
      { kind := GridCellKind.bubble, data := CellData.list [],
        allowOverlay := true, style := some style }
  | ColumnType.url =>
      { kind := GridCellKind.uri, data := CellData.prim (JSVal.str ""),
        readonly := some readonly, allowOverlay := true, style := some style }
  | ColumnType.image =>
      { kind := GridCellKind.image, data := CellData.strings [],
        displayData := CellData.strings [], allowAdd := some (!readonly),
        allowOverlay := true, style := some style }
  | ColumnType.lineChart =>
      { kind := GridCellKind.custom, allowOverlay := false, copyData := some "[]",
        data := CellData.custom
          { kind := some "sparkline-cell", values := [], displayValues := some [],
            graphKind := some "line", yAxis := some (0, 1) } }
  | ColumnType.barChart =>
      { kind := GridCellKind.custom, allowOverlay := false, copyData := some "[]",
        data := CellData.custom
          { kind := some "sparkline-cell", values := [],
            graphKind := some "bar", yAxis := some (0, 1) } }
  | ColumnType.progressChart =>
      { kind := GridCellKind.custom, allowOverlay := false, copyData := some "",
        data := CellData.custom
          { kind := some "range-cell", min := some (JSNum.val 0),
            max := some (JSNum.val 1), value := some (JSNum.val 0),
            step := some (JSNum.val (1 / 10)), label := some "0%",
            measureLabel := some "100%" } }

/-- getCellTemplate at the runtime boundary: TypeScript enums are strings,
so a call with a value outside the nine ColumnType strings reaches the
default branch of the switch, which throws "Unsupported cell type". -/
def getCellTemplateJS (type : String) (readonly isIndex : Bool) :
    Except String GridCell :=
  match ColumnType.fromString type with
  | some t => Except.ok (getCellTemplate t readonly isIndex)
  | Option.none => Except.error ("Unsupported cell type: " ++ type)

/-- getEmptyCell: a loading cell. -/
def getEmptyCell : GridCell :=
  { kind := GridCellKind.loading, allowOverlay := false }

/-- getErrorCell: a read-only text cell carrying the message (plus details
on a second line of the data), with the red text theme override. -/
def getErrorCell (errorMsg errorDetails : String) : GridCell :=
  { getCellTemplate ColumnType.text true false with
    data := CellData.prim
      (JSVal.str (errorMsg ++ (if errorDetails ≠ "" then "\n" ++ errorDetails else ""))),
    displayData := CellData.prim (JSVal.str errorMsg),
    themeOverride := some { textDark := some "#ff4b4b" } }

/-- An error cell as produced by getErrorCell: a text cell with exactly the
red text theme override. -/
def isErrorCell (cell : GridCell) : Bool :=
  if cell.kind = GridCellKind.text ∧
      cell.themeOverride = some { textDark := some "#ff4b4b" } then true
  else false

/-!  Quiver cells, display formatting and the per-kind fill functions. -/

/-- A dataframe cell object from Quiver: raw content, optional pandas
Styler display string and optional pandas Styler css id. -/
structure DataFrameCell where
  content : JSVal
  displayContent : Option String := Option.none
  cssId : Option String := Option.none
deriving DecidableEq

/-- Modelled from the spec: Quiver.format (src/lib/Quiver, outside this
excerpt) renders a cell's raw content as a display string; modelled as the
standard JS string conversion of the value. -/
def quiverFormat (v : JSVal) : String := jsValToString v

/-- getDisplayContent: the styler display string if present and non-empty
(JS truthiness), otherwise the formatted content; line breaks replaced by
spaces. -/
def getDisplayContent (quiverCell : DataFrameCell) : String :=
  let displayContent :=
    match quiverCell.displayContent with
    | some s => if s = "" then quiverFormat quiverCell.content else s
    | Option.none => quiverFormat quiverCell.content
  jsReplace (jsReplace (jsReplace displayContent "\r\n" " ") "\n" " ") "\r" " "

/-- extractCssProperty: the source extracts, with a regex, the value of a
CSS property for a given element id from a style string.  The model finds
the first occurrence of the element id, reads the rule block that follows
it, and takes the property's value up to a ';', whitespace or closing
brace, mirroring the regex on the inputs used; no claim depends on the
extracted value. -/
def extractCssProperty (htmlElementId property cssStyle : String) :
    Option String :=
  match cssStyle.splitOn htmlElementId with
  | _ :: afterId :: _ =>
    match afterId.splitOn "\x7b" with
    | _ :: blockAndRest :: _ =>
      let block := (blockAndRest.splitOn "\x7d").headD ""
      match block.splitOn (property ++ ":") with
      | _ :: afterProp :: _ =>
        let v := (((afterProp.trim.splitOn ";").headD "").splitOn " ").headD ""
        if v = "" then Option.none else some v
      | _ => Option.none
    | _ => Option.none
  | _ => Option.none

/-- applyPandasStylerCss: extracts the font and background color for the
cell's css id and attaches them as a theme override (the source always
attaches the override object, possibly with no colors set). -/
def applyPandasStylerCss (cell : GridCell) (cssId cssStyles : String) :
    GridCell :=
  let fontColor := extractCssProperty cssId "color" cssStyles
  let backgroundColor := extractCssProperty cssId "background-color" cssStyles
  { cell with themeOverride := some { textDark := fontColor, bgCell := backgroundColor } }

/-- fillListCell: a null value yields an empty list; otherwise the value is
passed through a JSON round trip and, if it is not an array, wrapped as a
one-element list of its string form. -/
def fillListCell (cell : GridCell) (data : JSVal) : GridCell :=
  let cellData : CellData :=
    if notNullOrUndefined data then
      match jsonRoundtrip data with
      | JSVal.arr vs => CellData.list vs
      | v => CellData.list [JSPrim.str (jsValToString v)]
    else CellData.list []
  { cell with data := cellData }

/-- fillUrlCell: the string form of the value, or the empty string for
null. -/
def fillUrlCell (cell : GridCell) (data : JSVal) : GridCell :=
  { cell with
    data := CellData.prim
      (JSVal.str (if notNullOrUndefined data then jsValToString data else "")) }

/-- fillTextCell: keeps a string or null value as the data, otherwise uses
the display string; always sets the display string. -/
def fillTextCell (cell : GridCell) (data : JSVal) (displayData : String) :
    GridCell :=
  { cell with
    data := CellData.prim
      (if data.isString || !(notNullOrUndefined data) then data
       else JSVal.str displayData),
    displayData := CellData.prim (JSVal.str displayData) }

/-- fillBooleanCell: a non-null non-boolean value yields an error cell;
otherwise the value (a boolean, null or undefined) becomes the data. -/
def fillBooleanCell (cell : GridCell) (data : JSVal) : GridCell :=
  if notNullOrUndefined data && !(data.isBool) then
    getErrorCell ("Incompatible boolean value: " ++ jsValToString data) ""
  else { cell with data := CellData.prim data }

/-- fillNumberCell: a null value leaves the data undefined; an Int32Array
contributes its first element; any value whose numeric conversion is NaN
yields an error cell. -/
def fillNumberCell (cell : GridCell) (data : JSVal) (displayData : String) :
    GridCell :=
  if notNullOrUndefined data then
    let cellData : JSNum :=
      match data with
      | JSVal.int32 xs =>
        match xs.head? with
        | some x => JSNum.val x
        | Option.none => JSNum.nan
      | _ => toNumber data
    if cellData.isNaN then
      getErrorCell ("Incompatible number value: " ++ jsValToString data) ""
    else
      { cell with data := CellData.prim (JSVal.num cellData),
                  displayData := CellData.prim (JSVal.str displayData) }
  else
    { cell with data := CellData.prim JSVal.undef,
                displayData := CellData.prim (JSVal.str displayData) }

/-- fillImageCell: the string form of the value as a one-element image url
list, or the empty list for null. -/
def fillImageCell (cell : GridCell) (data : JSVal) : GridCell :=
  let imageUrls : List String :=
    if notNullOrUndefined data then [jsValToString data] else []
  { cell with data := CellData.strings imageUrls,
              displayData := CellData.strings imageUrls }

/-- The custom data payload of a cell, as read by the
`(cell as CustomCell)?.data` spreads; a cell without a custom payload
spreads as the empty object. -/
def customDataOf (cell : GridCell) : CustomData :=
  match cell.data with
  | CellData.custom d => d
  | _ => {}

/-- The forEach loop body of fillChartCell over the chart array: tracks the
running maximum and minimum and collects the converted values.  The source
executes `return getErrorCell(...)` inside the forEach callback when a
converted value is NaN; that return only exits the callback, so the NaN
value is skipped (after the max/min comparisons, which NaN never wins) and
no error cell ever escapes the loop. -/
def chartForEach (maxValue minValue : JSNum) (converted : List JSNum) :
    List JSPrim → JSNum × JSNum × List JSNum
  | [] => (maxValue, minValue, converted)
  | v :: rest =>
    let convertedValue := primToNum v
    let maxValue' := if jgt convertedValue maxValue then convertedValue else maxValue
    let minValue' := if jlt convertedValue minValue then convertedValue else minValue
    if convertedValue.isNaN then chartForEach maxValue' minValue' converted rest
    else chartForEach maxValue' minValue' (converted ++ [convertedValue]) rest

/-- The chart array underlying the raw value: the value itself if it is an
array, its toArray if it is an arrow Vector, nothing otherwise. -/
def chartArray : JSVal → Option (List JSPrim)
  | JSVal.arr vs => some vs
  | JSVal.vector vs => some vs
  | _ => Option.none

/-- fillChartCell: null yields a loading cell; a non-array non-Vector value
yields an error cell; otherwise the element values are converted and, when
the running maximum exceeds 1 or the running minimum is below 0, normalized
by (v - min) / (max - min) with no guard against max = min. -/
def fillChartCell (cell : GridCell) (data : JSVal) : GridCell :=
  if !(notNullOrUndefined data) then getEmptyCell
  else
    match chartArray data with
    | Option.none =>
        getErrorCell ("Incompatible chart value: " ++ jsValToString data)
          "The provided value is not an array."
    | some chartData =>
      let lists : List JSNum × List JSNum :=
        match chartData with
        | [] => ([], [])
        | v0 :: _ =>
          let initial := primToNum v0
          let r := chartForEach initial initial [] chartData
          let maxValue := r.1
          let minValue := r.2.1
          let convertedChartData := r.2.2
          let normalizedChartData :=
            if jgt maxValue (JSNum.val 1) || jlt minValue (JSNum.val 0) then
              convertedChartData.map
                (fun v => jdiv (jsub v minValue) (jsub maxValue minValue))
            else convertedChartData
          (convertedChartData, normalizedChartData)
      { cell with
        copyData := some (jsonNumList lists.1),
        data := CellData.custom
          { customDataOf cell with values := lists.2, displayValues := some lists.1 } }

/-- fillProgressCell: null yields a loading cell; a NaN conversion or a
value outside the interval from 0 to 1 yields an error cell; otherwise the
value and its percent label are written into the range-cell payload. -/
def fillProgressCell (cell : GridCell) (data : JSVal) : GridCell :=
  if !(notNullOrUndefined data) then getEmptyCell
  else
    let cellData := toNumber data
    if cellData.isNaN || jlt cellData (JSNum.val 0) || jgt cellData (JSNum.val 1) then
      getErrorCell ("Incompatible progress value: " ++ jsValToString data)
        "The value has to be between 0 and 1."
    else
      { cell with
        copyData := some (jsValToString data),
        data := CellData.custom
          { customDataOf cell with
            value := some cellData,
            label := some (jsNumToString (jround (jmul cellData (JSNum.val 100))) ++ "%") } }

/-- The cell kind the fill switch dispatches on: the cell's kind string, or
for a Custom cell the kind carried by its data payload; Option.none stands
for a falsy (missing or empty) kind. -/
def cellKindOf (cell : GridCell) : Option String :=
  if cell.kind = GridCellKind.custom then
    match cell.data with
    | CellData.custom d =>
      match d.kind with
      | some s => if s = "" then Option.none else some s
      | Option.none => Option.none
    | _ => Option.none
  else some cell.kind.str

/-- The cell kinds handled by the fill switch of fillCellTemplate. -/
def supportedCellKinds : List String :=
  ["text", "number", "boolean", "bubble", "uri", "image",
   "sparkline-cell", "range-cell"]

/-- fillCellTemplate: dispatches on the template's (inner) kind, applying
the pandas styler css when both a style string and a css id are present,
and returns an error cell for a missing kind or for a kind outside the
supported set. -/
def fillCellTemplate (cellTemplate : GridCell) (quiverCell : DataFrameCell)
    (cssStyles : Option String) : GridCell :=
  match cellKindOf cellTemplate with
  | Option.none => getErrorCell "Unable to determine cell type." ""
  | some cellKind =>
    let cellTemplate :=
      match cssStyles, quiverCell.cssId with
      | some css, some cssId =>
        if css ≠ "" ∧ cssId ≠ "" then applyPandasStylerCss cellTemplate cssId css
        else cellTemplate
      | _, _ => cellTemplate
    if cellKind = "text" then
      fillTextCell cellTemplate quiverCell.content (getDisplayContent quiverCell)
    else if cellKind = "number" then
      fillNumberCell cellTemplate quiverCell.content (getDisplayContent quiverCell)
    else if cellKind = "boolean" then
      fillBooleanCell cellTemplate quiverCell.content
    else if cellKind = "bubble" then
      fillListCell cellTemplate quiverCell.content
    else if cellKind = "uri" then
      fillUrlCell cellTemplate quiverCell.content
    else if cellKind = "image" then
      fillImageCell cellTemplate quiverCell.content
    else if cellKind = "sparkline-cell" then
      fillChartCell cellTemplate quiverCell.content
    else if cellKind = "range-cell" then
      fillProgressCell cellTemplate quiverCell.content
    else getErrorCell ("Unsupported cell kind: " ++ cellKind) ""

/-- updateCell: re-fills an editable cell with a new value (the display
string defaults to the value's string form) and stamps it as updated; the
source stamps lastUpdated with performance.now(), modelled as a flag.
Kinds other than text, number, boolean and uri cannot be edited. -/
def updateCell (cell : GridCell) (newValue : JSVal)
    (newDisplayValue : Option String) : GridCell :=
  match cellKindOf cell with
  | Option.none => getErrorCell "Unable to determine cell type." ""
  | some cellKind =>
    let disp :=
      match newDisplayValue with
      | some s => s
      | Option.none => jsValToString newValue
    let updatedCell : Option GridCell :=
      if cellKind = "text" then some (fillTextCell cell newValue disp)
      else if cellKind = "number" then some (fillNumberCell cell newValue disp)
      else if cellKind = "boolean" then some (fillBooleanCell cell newValue)
      else if cellKind = "uri" then some (fillUrlCell cell newValue)
      else Option.none
    match updatedCell with
    | Option.none => getErrorCell ("Cell cannot be edited: " ++ cellKind) ""
    | some c => { c with lastUpdated := true }

/-!  The DataFrame component state: editing cache, column configuration and
cell access (DataFrame.tsx), with React state passed explicitly. -/

def MIN_COLUMN_WIDTH : ℚ := 35

def MAX_COLUMN_WIDTH : ℚ := 600

/-- A JS Map modelled as an association list: get returns the first binding
of the key. -/
def mapGet {α β : Type} [DecidableEq α] : List (α × β) → α → Option β
  | [], _ => Option.none
  | (k', v') :: rest, k => if k' = k then some v' else mapGet rest k

/-- A JS Map modelled as an association list: set overwrites the existing
binding in place, or appends a new one. -/
def mapSet {α β : Type} [DecidableEq α] : List (α × β) → α → β → List (α × β)
  | [], k, v => [(k, v)]
  | (k', v') :: rest, k, v =>
    if k' = k then (k', v) :: rest else (k', v') :: mapSet rest k v

/-- EditingCache: the sparse column-to-row-to-cell map of user edits. -/
structure EditingCache where
  cachedContent : List (Nat × List (Nat × GridCell)) := []

/-- EditingCache.get: the cached cell at (col, row), if any. -/
def EditingCache.get (cache : EditingCache) (col row : Nat) : Option GridCell :=
  match mapGet cache.cachedContent col with
  | Option.none => Option.none
  | some colCache => mapGet colCache row

/-- EditingCache.set: inserts an empty row map for the column when absent,
then writes the cell into the column's row map. -/
def EditingCache.set (cache : EditingCache) (col row : Nat) (value : GridCell) :
    EditingCache :=
  let rowCache :=
    match mapGet cache.cachedContent col with
    | some rc => rc
    | Option.none => []
  ⟨mapSet cache.cachedContent col (mapSet rowCache row value)⟩

/-- A grid column together with its semantic type and flags
(GridColumnWithCellTemplate). -/
structure GridColumnWithCellTemplate where
  id : String := ""
  title : String := ""
  width : Option ℚ := Option.none
  columnType : ColumnType := ColumnType.text
  columnIndex : Nat := 0
  isEditable : Bool := false
  isHidden : Bool := false
  isIndex : Bool := false
deriving DecidableEq

/-- A user-supplied column configuration entry (ColumnConfigProps). -/
structure ColumnConfigProps where
  width : Option ℚ := Option.none
  title : Option String := Option.none
  typeName : Option String := Option.none
  hide : Option Bool := Option.none
  editable : Option Bool := Option.none
deriving DecidableEq

/-- A key of the columns-config map: a column index or a column title. -/
inductive ConfigKey where
  | index (i : Nat)
  | name (s : String)
deriving DecidableEq

/-- The config lookup of applyColumnConfig: by column index first, then by
column title. -/
def lookupColumnConfig (columnsConfig : List (ConfigKey × ColumnConfigProps))
    (column : GridColumnWithCellTemplate) : Option ColumnConfigProps :=
  match mapGet columnsConfig (ConfigKey.index column.columnIndex) with
  | some cfg => some cfg
  | Option.none => mapGet columnsConfig (ConfigKey.name column.title)

/-- applyColumnConfig: applies a configuration entry to a column; a hidden
column maps to Option.none, and a configured width w is replaced by
Math.max(Math.min(w, MIN_COLUMN_WIDTH), MAX_COLUMN_WIDTH). -/
def applyColumnConfig (column : GridColumnWithCellTemplate)
    (columnsConfig : Option (List (ConfigKey × ColumnConfigProps))) :
    Option GridColumnWithCellTemplate :=
  match columnsConfig with
  | Option.none => some column
  | some cfgs =>
    match lookupColumnConfig cfgs column with
    | Option.none => some column
    | some columnConfig =>
      if columnConfig.hide = some true then Option.none
      else some
        { column with
          title :=
            (match columnConfig.title with
             | some t => t
             | Option.none => column.title),
          width :=
            (match columnConfig.width with
             | some w => some (max (min w MIN_COLUMN_WIDTH) MAX_COLUMN_WIDTH)
             | Option.none => column.width),
          columnType :=
            (match columnConfig.typeName with
             | some s => getColumnTypeFromConfig (some s)
             | Option.none => column.columnType),
          isEditable :=
            (match columnConfig.editable with
             | some e => e
             | Option.none => column.isEditable) }

/-- The Quiver table as consumed by the component: emptiness, dimensions,
the cell accessor (which can throw, modelled by Except) and the optional
styler css. -/
structure QuiverTable where
  isEmpty : Bool
  rows : Nat
  getCell : Nat → Nat → Except String DataFrameCell
  cssStyles : Option String := Option.none

/-- The row count used by useDataLoader: one for an empty table, otherwise
the table's row count minus one for the header row. -/
def numRowsOf (data : QuiverTable) : Int :=
  if data.isEmpty then 1 else (data.rows : Int) - 1

/-- The state read by getCellContent and written by onCellEdited: the edit
cache overlay, the source table and the derived columns. -/
structure DFState where
  cache : EditingCache
  data : QuiverTable
  columns : List GridColumnWithCellTemplate

/-- getCellContent: empty tables yield a fixed placeholder; out-of-range
columns yield a bare text template; otherwise the editing cache is
consulted before the source table, whose cell (offset one row for the
header) fills the column's template; a throwing table access is caught and
yields the bare template. -/
def getCellContent (st : DFState) (col row : Nat) : GridCell :=
  if st.data.isEmpty then
    { getCellTemplate ColumnType.text true true with
      displayData := CellData.prim (JSVal.str "empty") }
  else if (col : Int) > (st.columns.length : Int) - 1 then
    getCellTemplate ColumnType.text true false
  else
    match st.cache.get col row with
    | some cell => cell
    | Option.none =>
      match st.columns.get? col with
      | Option.none => getCellTemplate ColumnType.text true false
      | some column =>
        let cellTemplate :=
          getCellTemplate column.columnType (!column.isEditable) column.isIndex
        if (row : Int) > numRowsOf st.data - 1 then cellTemplate
        else
          match st.data.getCell (row + 1) column.columnIndex with
          | Except.error _ => cellTemplate
          | Except.ok quiverCell =>
            fillCellTemplate cellTemplate quiverCell st.data.cssStyles

/-- Modelled from the spec: glide-data-grid's isEditableGridCell (external)
holds for the cell kinds whose data a user can edit in this grid. -/
def isEditableGridCell (cell : GridCell) : Bool :=
  cell.kind = GridCellKind.text ∨ cell.kind = GridCellKind.number ∨
    cell.kind = GridCellKind.boolean ∨ cell.kind = GridCellKind.uri

/-- The data field of a cell viewed as a raw value, for the typeof checks
of onCellEdited. -/
def cellRawData (cell : GridCell) : JSVal :=
  match cell.data with
  | CellData.prim v => v
  | _ => JSVal.undef

/-- The typeof check of onCellEdited: the new data must be a string, a
number or a boolean. -/
def isPrimitiveEditValue (v : JSVal) : Bool :=
  v.isString || v.isNumber || v.isBool

/-- Modelled from the spec: useColumnSort's getOriginalIndex (external
hook) maps a displayed row index back to the source row; with no sort
configured it is the identity. -/
def getOriginalIndex (row : Nat) : Nat := row

/-- onCellEdited: ignores non-editable cells and non-primitive new values;
otherwise writes the updated cell into the editing cache overlay, leaving
the source table untouched. -/
def onCellEdited (st : DFState) (col row : Nat) (newVal : GridCell) : DFState :=
  let currentCell := getCellContent st col row
  if !(isEditableGridCell newVal) || !(isEditableGridCell currentCell) then st
  else if isPrimitiveEditValue (cellRawData newVal) then
    { st with
      cache := st.cache.set col (getOriginalIndex row)
        (updateCell currentCell (cellRawData newVal) Option.none) }
  else st

/-!  Accessors used by the claim statements. -/

/-- The range-cell value carried by a cell's custom payload, if any. -/
def rangeValue (cell : GridCell) : Option JSNum :=
  match cell.data with
  | CellData.custom d => d.value
  | _ => Option.none

/-- The range-cell label carried by a cell's custom payload, if any. -/
def rangeLabel (cell : GridCell) : Option String :=
  match cell.data with
  | CellData.custom d => d.label
  | _ => Option.none

/-- The sparkline values carried by a cell's custom payload. -/
def chartValues (cell : GridCell) : List JSNum :=
  match cell.data with
  | CellData.custom d => d.values
  | _ => []

/-- getErrorCell always satisfies the isErrorCell predicate. -/
theorem isErrorCell_getErrorCell (msg details : String) :
    isErrorCell (getErrorCell msg details) = true := rfl

/-- C3 (amended): on a boolean column template, fillBooleanCell yields an
error cell exactly for the values that are present (neither null nor
undefined) and not booleans; a boolean value is stored in the cell as is,
and a null or undefined value is stored as is rather than rejected. -/
theorem fillBooleanCell_error_iff :
    ∀ (ro ix : Bool) (v : JSVal),
      (isErrorCell (fillBooleanCell (getCellTemplate ColumnType.boolean ro ix) v) = true ↔
        notNullOrUndefined v = true ∧ v.isBool = false) ∧
      (∀ b : Bool,
        fillBooleanCell (getCellTemplate ColumnType.boolean ro ix) (JSVal.bool b) =
          { getCellTemplate ColumnType.boolean ro ix with
            data := CellData.prim (JSVal.bool b) }) := by
  intro ro ix v
  constructor
  · cases v <;>
      simp [fillBooleanCell, notNullOrUndefined, JSVal.isBool, isErrorCell,
        getErrorCell, getCellTemplate]
  · intro b
    rfl

/-- C3 counterexample: null is not a boolean, yet fillBooleanCell yields a
boolean cell (carrying null) rather than an error cell, refuting the iff of
the claim. -/
theorem fillBooleanCell_null_counterexample :
    JSVal.isBool JSVal.null = false ∧
    isErrorCell
        (fillBooleanCell (getCellTemplate ColumnType.boolean false false)
          JSVal.null) = false ∧
    (fillBooleanCell (getCellTemplate ColumnType.boolean false false)
        JSVal.null).kind = GridCellKind.boolean := by
  decide

/-- C1 (amended): for a present value whose numeric conversion is a finite
number q, fillProgressCell on the progress template yields, when q lies in
the interval from 0 to 1, a range cell carrying exactly q (not a clamped
value) with label round(q * 100) followed by a percent sign; when q lies
outside that interval it yields an error cell instead of clamping. -/
theorem fillProgressCell_range_spec :
    ∀ (v : JSVal) (q : ℚ), notNullOrUndefined v = true →
      toNumber v = JSNum.val q →
      (0 ≤ q → q ≤ 1 →
        (fillProgressCell (getCellTemplate ColumnType.progressChart false false) v).kind
            = GridCellKind.custom ∧
        isErrorCell
            (fillProgressCell (getCellTemplate ColumnType.progressChart false false) v)
            = false ∧
        rangeValue
            (fillProgressCell (getCellTemplate ColumnType.progressChart false false) v)
            = some (JSNum.val q) ∧
        rangeLabel
            (fillProgressCell (getCellTemplate ColumnType.progressChart false false) v)
            = some (toString (roundJS (q * 100)) ++ "%")) ∧
      ((q < 0 ∨ 1 < q) →
        isErrorCell
            (fillProgressCell (getCellTemplate ColumnType.progressChart false false) v)
            = true) := by
  intro v q hv hq
  constructor
  · intro h0 h1
    have hn : ¬(q < 0) := not_lt.mpr h0
    have hm : ¬(1 < q) := not_lt.mpr h1
    simp only [fillProgressCell, hv, Bool.not_true, Bool.false_eq_true, if_false, hq,
      JSNum.isNaN, jlt, jgt, decide_eq_false hn, decide_eq_false hm, Bool.or_self,
      Bool.or_false, Bool.false_or]
    refine ⟨rfl, ?_, rfl, ?_⟩
    · simp [isErrorCell, getCellTemplate]
    · simp [rangeLabel, customDataOf, getCellTemplate, jmul, jround, jsNumToString,
        Rat.den_intCast, Rat.num_intCast]
  · intro hout
    have hcond :
        (JSNum.isNaN (JSNum.val q) || jlt (JSNum.val q) (JSNum.val 0)
          || jgt (JSNum.val q) (JSNum.val 1)) = true := by
      rcases hout with h | h
      · simp [JSNum.isNaN, jlt, h]
      · simp [JSNum.isNaN, jlt, jgt, h]
    simp only [fillProgressCell, hv, Bool.not_true, Bool.false_eq_true, if_false, hq,
      hcond, if_true]
    exact isErrorCell_getErrorCell _ _

/-- C1 counterexample: at the value 2 the claim demands a range cell with
the clamped value 1 and label 100 percent, but the code returns an error
cell (a text cell with no range payload). -/
theorem fillProgressCell_no_clamp_counterexample :
    isErrorCell
        (fillProgressCell (getCellTemplate ColumnType.progressChart false false)
          (JSVal.num (JSNum.val 2))) = true ∧
    (fillProgressCell (getCellTemplate ColumnType.progressChart false false)
        (JSVal.num (JSNum.val 2))).kind ≠ GridCellKind.custom ∧
    rangeValue
        (fillProgressCell (getCellTemplate ColumnType.progressChart false false)
          (JSVal.num (JSNum.val 2))) = Option.none := by
  decide

/-- C1 witness: the in-range value one half passes through with its exact
value and percent label. -/
theorem fillProgressCell_range_spec_witness :
    rangeValue
        (fillProgressCell (getCellTemplate ColumnType.progressChart false false)
          (JSVal.num (JSNum.val (1 / 2)))) = some (JSNum.val (1 / 2)) ∧
    rangeLabel
        (fillProgressCell (getCellTemplate ColumnType.progressChart false false)
          (JSVal.num (JSNum.val (1 / 2)))) =
      some (toString (roundJS ((1 / 2 : ℚ) * 100)) ++ "%") := by
  have h :=
    (fillProgressCell_range_spec (JSVal.num (JSNum.val (1 / 2))) (1 / 2) rfl rfl).1
      (by norm_num) (by norm_num)
  exact ⟨h.2.2.1, h.2.2.2⟩

/-- The chart column kinds, whose templates are Custom cells. -/
def ColumnType.isChart : ColumnType → Bool
  | ColumnType.barChart => true
  | ColumnType.lineChart => true
  | ColumnType.progressChart => true
  | _ => false

/-- The grid cell kind each column type's template carries. -/
def expectedCellKind : ColumnType → GridCellKind
  | ColumnType.text => GridCellKind.text
  | ColumnType.number => GridCellKind.number
  | ColumnType.boolean => GridCellKind.boolean
  | ColumnType.list => GridCellKind.bubble
  | ColumnType.url => GridCellKind.uri
  | ColumnType.image => GridCellKind.image
  | ColumnType.barChart => GridCellKind.custom
  | ColumnType.lineChart => GridCellKind.custom
  | ColumnType.progressChart => GridCellKind.custom

/-- C5: fillCellTemplate is total over the embedded cell model and maps the
two invalid-template shapes to the designated error cells: a template with
a falsy (missing or empty) inner kind yields the "Unable to determine cell
type." error cell, and a template whose inner kind lies outside the
supported set yields the "Unsupported cell kind" error cell. -/
theorem fillCellTemplate_error_cells :
    ∀ (t : GridCell) (qc : DataFrameCell) (css : Option String),
      (cellKindOf t = Option.none →
        fillCellTemplate t qc css = getErrorCell "Unable to determine cell type." "") ∧
      (∀ s : String, cellKindOf t = some s → s ∉ supportedCellKinds →
        fillCellTemplate t qc css = getErrorCell ("Unsupported cell kind: " ++ s) "") := by
  intro t qc css
  constructor
  · intro h
    simp [fillCellTemplate, h]
  · intro s h hs
    simp only [supportedCellKinds, List.mem_cons, List.mem_singleton,
      not_or, List.not_mem_nil] at hs
    obtain ⟨h1, h2, h3, h4, h5, h6, h7, h8, -⟩ := hs
    simp [fillCellTemplate, h, h1, h2, h3, h4, h5, h6, h7, h8]

/-- C5 witness: the loading-cell template (kind outside the supported set)
and a Custom template with an empty data payload (no inner kind) both map
to the respective error cells. -/
theorem fillCellTemplate_error_cells_witness :
    fillCellTemplate getEmptyCell { content := JSVal.null } Option.none =
      getErrorCell "Unsupported cell kind: loading" "" ∧
    fillCellTemplate { kind := GridCellKind.custom, data := CellData.custom {} }
        { content := JSVal.null } Option.none =
      getErrorCell "Unable to determine cell type." "" :=
  ⟨(fillCellTemplate_error_cells getEmptyCell { content := JSVal.null }
      Option.none).2 "loading" rfl (by decide),
   (fillCellTemplate_error_cells
      { kind := GridCellKind.custom, data := CellData.custom {} }
      { content := JSVal.null } Option.none).1 rfl⟩

/-- C6 (amended): every template's grid kind corresponds to its column
type; the six non-chart templates carry the style "faded" exactly when the
column is an index, while the three chart templates carry no style field at
all; and every string outside the nine enum values makes getCellTemplate
throw "Unsupported cell type". -/
theorem getCellTemplate_kind_style_throw :
    (∀ (t : ColumnType) (ro ix : Bool),
      (getCellTemplate t ro ix).kind = expectedCellKind t ∧
      (ColumnType.isChart t = false →
        (getCellTemplate t ro ix).style =
          some (if ix then CellStyle.faded else CellStyle.normal)) ∧
      (ColumnType.isChart t = true →
        (getCellTemplate t ro ix).style = Option.none)) ∧
    (∀ (s : String) (ro ix : Bool), ColumnType.fromString s = Option.none →
      getCellTemplateJS s ro ix = Except.error ("Unsupported cell type: " ++ s)) := by
  constructor
  · intro t ro ix
    cases t <;>
      exact ⟨rfl, fun h => by first | rfl | exact absurd h (by decide),
        fun h => by first | rfl | exact absurd h (by decide)⟩
  · intro s ro ix h
    simp [getCellTemplateJS, h]

/-- C6 counterexample: the progress-chart template of an index column
carries no style field, so its style is not "faded" as the claim demands
for every index column. -/
theorem getCellTemplate_chart_style_counterexample :
    (getCellTemplate ColumnType.progressChart false true).style ≠
        some CellStyle.faded ∧
    (getCellTemplate ColumnType.progressChart false true).style = Option.none := by
  decide

/-- C6 witness: a text index column gets the faded style, and the string
"foo" (outside the enum) makes template construction throw. -/
theorem getCellTemplate_kind_style_throw_witness :
    (getCellTemplate ColumnType.text false true).style = some CellStyle.faded ∧
    getCellTemplateJS "foo" false true =
      Except.error ("Unsupported cell type: " ++ "foo") :=
  ⟨(getCellTemplate_kind_style_throw.1 ColumnType.text false true).2.1 rfl,
   getCellTemplate_kind_style_throw.2 "foo" false true rfl⟩

/-!  C7: column-type inference lands in the closed set, stated as a
refinement against definitions that follow the spec sentence. -/

/-- Object.values(ColumnType), in declaration order. -/
def columnTypeValues : List ColumnType :=
  [ColumnType.text, ColumnType.number, ColumnType.boolean, ColumnType.list,
   ColumnType.url, ColumnType.image, ColumnType.barChart, ColumnType.lineChart,
   ColumnType.progressChart]

/-- The quiver-side mapping exactly as the claim words it: missing or empty
names give Text; after lowercasing and trimming, "bool" gives Boolean,
"int64", "float64" and "range" give Number, a name starting with "list"
gives List, and every other name gives Text. -/
def specQuiverName (t : String) : ColumnType :=
  if t = "bool" then ColumnType.boolean
  else if t = "int64" ∨ t = "float64" ∨ t = "range" then ColumnType.number
  else if jsStartsWith t "list" then ColumnType.list
  else ColumnType.text

/-- The quiver-side mapping of the claim lifted to optional names. -/
def specQuiverColumnType (typeName : Option String) : ColumnType :=
  match typeName with
  | Option.none => ColumnType.text
  | some s =>
    if s = "" then ColumnType.text
    else specQuiverName (jsTrim (jsToLower s))

/-- The config-side mapping exactly as the claim words it: a name equal to
one of the ColumnType values maps to that member, anything else to Text. -/
def specConfigName (t : String) : ColumnType :=
  match columnTypeValues.find? (fun ct => t = ct.str) with
  | some ct => ct
  | Option.none => ColumnType.text

/-- The config-side mapping of the claim lifted to optional names. -/
def specConfigColumnType (typeName : Option String) : ColumnType :=
  match typeName with
  | Option.none => ColumnType.text
  | some s =>
    if s = "" then ColumnType.text
    else specConfigName (jsTrim (jsToLower s))

/-- The source branch chain on quiver type names agrees with the claim's
table: the explicit unicode and date branches only restate the Text
fallback. -/
theorem quiverTypeName_eq_spec (t : String) :
    quiverTypeNameToColumnType t = specQuiverName t := by
  by_cases h1 : t = "unicode"
  · rw [h1]; decide
  by_cases h2 : t = "date"
  · rw [h2]; decide
  by_cases h3 : t = "datetime"
  · rw [h3]; decide
  by_cases h4 : t = "datetimetz"
  · rw [h4]; decide
  simp [quiverTypeNameToColumnType, specQuiverName, h1, h2, h3, h4]

/-- The enum-membership cast of the source agrees with the claim's
lookup over Object.values(ColumnType). -/
theorem configTypeName_eq_spec (t : String) :
    configTypeNameToColumnType t = specConfigName t := by
  by_cases h1 : t = "text"
  · rw [h1]; decide
  by_cases h2 : t = "number"
  · rw [h2]; decide
  by_cases h3 : t = "boolean"
  · rw [h3]; decide
  by_cases h4 : t = "list"
  · rw [h4]; decide
  by_cases h5 : t = "url"
  · rw [h5]; decide
  by_cases h6 : t = "image"
  · rw [h6]; decide
  by_cases h7 : t = "bar-chart"
  · rw [h7]; decide
  by_cases h8 : t = "line-chart"
  · rw [h8]; decide
  by_cases h9 : t = "progress-chart"
  · rw [h9]; decide
  simp [configTypeNameToColumnType, specConfigName, ColumnType.fromString,
    columnTypeValues, List.find?, ColumnType.str, h1, h2, h3, h4, h5, h6, h7,
    h8, h9]

/-- C7: both inference functions coincide with the closed mapping the spec
states: getColumnTypeFromQuiver realizes the quiver table (bool to Boolean;
int64, float64 and range to Number; a name starting with list to List;
everything else, missing names included, to Text) and
getColumnTypeFromConfig realizes the enum-membership lookup with Text as
the fallback. -/
theorem columnType_inference_spec :
    (∀ q : QuiverType, getColumnTypeFromQuiver q = specQuiverColumnType q.typeName) ∧
    (∀ s : Option String, getColumnTypeFromConfig s = specConfigColumnType s) := by
  constructor
  · intro q
    unfold getColumnTypeFromQuiver specQuiverColumnType
    cases q.typeName with
    | none => rfl
    | some s =>
      by_cases h0 : s = ""
      · simp [h0]
      · simp [h0, quiverTypeName_eq_spec]
  · intro s
    unfold getColumnTypeFromConfig specConfigColumnType
    cases s with
    | none => rfl
    | some s =>
      by_cases h0 : s = ""
      · simp [h0]
      · simp [h0, configTypeName_eq_spec]

/-!  C4: the editing overlay cache. -/

/-- Reading a JS-Map model right after writing a key yields the written
value. -/
theorem mapGet_mapSet_self {α β : Type} [DecidableEq α]
    (m : List (α × β)) (k : α) (v : β) : mapGet (mapSet m k v) k = some v := by
  induction m with
  | nil => simp [mapGet, mapSet]
  | cons hd tl ih =>
    obtain ⟨k', v'⟩ := hd
    by_cases h : k' = k
    · simp [mapGet, mapSet, h]
    · simp [mapGet, mapSet, h, ih]

/-- Writing one key of a JS-Map model leaves every other key unchanged. -/
theorem mapGet_mapSet_ne {α β : Type} [DecidableEq α]
    (m : List (α × β)) (k : α) (v : β) (k' : α) (h : k' ≠ k) :
    mapGet (mapSet m k v) k' = mapGet m k' := by
  have h' : ¬(k = k') := fun hk => h hk.symm
  induction m with
  | nil => simp [mapGet, mapSet, h']
  | cons hd tl ih =>
    obtain ⟨k0, v0⟩ := hd
    by_cases h0 : k0 = k
    · subst h0
      simp [mapGet, mapSet, h']
    · simp only [mapSet, if_neg h0]
      by_cases h1 : k0 = k'
      · simp [mapGet, h1]
      · simp [mapGet, h1, ih]

/-- C4: the editing cache is a sparse (column, row) map consulted before
the source table: a set is read back at the written coordinate, every other
coordinate is untouched, and on a non-empty table getCellContent returns
the cached cell at any in-range column holding one, bypassing the source
table entirely. -/
theorem editingCache_overlay_spec :
    (∀ (cache : EditingCache) (col row : Nat) (cell : GridCell),
      (cache.set col row cell).get col row = some cell) ∧
    (∀ (cache : EditingCache) (col row c r : Nat) (cell : GridCell),
      ¬(c = col ∧ r = row) →
      (cache.set col row cell).get c r = cache.get c r) ∧
    (∀ (st : DFState) (col row : Nat) (cell : GridCell),
      st.data.isEmpty = false → col < st.columns.length →
      st.cache.get col row = some cell →
      getCellContent st col row = cell) := by
  refine ⟨?_, ?_, ?_⟩
  · intro cache col row cell
    simp [EditingCache.get, EditingCache.set, mapGet_mapSet_self]
  · intro cache col row c r cell hne
    by_cases hc : c = col
    · subst hc
      have hr : r ≠ row := fun h => hne ⟨rfl, h⟩
      simp only [EditingCache.get, EditingCache.set, mapGet_mapSet_self]
      cases hcol : mapGet cache.cachedContent c with
      | none =>
        rw [mapGet_mapSet_ne _ _ _ _ hr]
        rfl
      | some rc =>
        rw [mapGet_mapSet_ne _ _ _ _ hr]
    · simp [EditingCache.get, EditingCache.set, mapGet_mapSet_ne _ _ _ _ hc]
  · intro st col row cell hempty hcol hcache
    have hguard : ¬((col : Int) > (st.columns.length : Int) - 1) := by omega
    simp [getCellContent, hempty, hguard, hcache]

/-- A sample edited cell for the cache witnesses. -/
def sampleEditCell : GridCell := getCellTemplate ColumnType.text false false

/-- A small non-empty sample table. -/
def sampleTable : QuiverTable :=
  { isEmpty := false, rows := 3,
    getCell := fun _ _ => Except.ok { content := JSVal.str "a" } }

/-- A component state with one column and one cached edit at (0, 1). -/
def sampleState : DFState :=
  { cache := EditingCache.set {} 0 1 sampleEditCell,
    data := sampleTable,
    columns := [{ id := "column-a-0", title := "a" }] }

/-- C4 witness: the cached edit is read back, an untouched coordinate still
misses, and getCellContent at (0, 1) returns the cached cell. -/
theorem editingCache_overlay_spec_witness :
    (EditingCache.set {} 0 1 sampleEditCell).get 0 1 = some sampleEditCell ∧
    (EditingCache.set {} 0 1 sampleEditCell).get 2 3 =
      ({} : EditingCache).get 2 3 ∧
    getCellContent sampleState 0 1 = sampleEditCell :=
  ⟨editingCache_overlay_spec.1 {} 0 1 sampleEditCell,
   editingCache_overlay_spec.2.1 {} 0 1 2 3 sampleEditCell (by decide),
   editingCache_overlay_spec.2.2 sampleState 0 1 sampleEditCell rfl
     (by decide) rfl⟩

/-- C8: a user edit writes only into the editing-cache overlay: the source
table and the column list of the state are untouched by onCellEdited (the
fill functions themselves are pure functions from template and value to a
fresh cell, so display formatting cannot mutate the source table). -/
theorem onCellEdited_preserves_source :
    ∀ (st : DFState) (col row : Nat) (newVal : GridCell),
      (onCellEdited st col row newVal).data = st.data ∧
      (onCellEdited st col row newVal).columns = st.columns := by
  intro st col row newVal
  by_cases h1 :
      (!isEditableGridCell newVal
        || !isEditableGridCell (getCellContent st col row)) = true
  · simp [onCellEdited, h1]
  · by_cases h2 : isPrimitiveEditValue (cellRawData newVal) = true
    · simp [onCellEdited, h1, h2]
    · simp [onCellEdited, h1, h2]

/-- C9: whenever a column configuration entry found for a column specifies
a width w and does not hide the column, the resulting column's width is
MAX_COLUMN_WIDTH = 600 regardless of w, because the source computes
Math.max(Math.min(w, MIN_COLUMN_WIDTH), MAX_COLUMN_WIDTH) with the two
bounds swapped; the configured width is never honoured. -/
theorem applyColumnConfig_width_always_max :
    ∀ (column : GridColumnWithCellTemplate)
      (cfgs : List (ConfigKey × ColumnConfigProps))
      (cfg : ColumnConfigProps) (w : ℚ),
      lookupColumnConfig cfgs column = some cfg →
      cfg.hide ≠ some true →
      cfg.width = some w →
      ∃ column', applyColumnConfig column (some cfgs) = some column' ∧
        column'.width = some MAX_COLUMN_WIDTH := by
  intro column cfgs cfg w hlook hhide hw
  have hminmax : max (min w MIN_COLUMN_WIDTH) MAX_COLUMN_WIDTH = MAX_COLUMN_WIDTH := by
    refine max_eq_right (le_trans (min_le_right _ _) ?_)
    norm_num [MIN_COLUMN_WIDTH, MAX_COLUMN_WIDTH]
  simp only [applyColumnConfig, hlook]
  rw [if_neg hhide]
  exact ⟨_, rfl, by simp [hw, hminmax]⟩

/-- A sample configuration entry asking for width 200. -/
def sampleConfigEntry : ColumnConfigProps := { width := some 200 }

/-- C9 witness: a requested width of 200 comes out as 600. -/
theorem applyColumnConfig_width_always_max_witness :
    ∃ column',
      applyColumnConfig {} (some [(ConfigKey.index 0, sampleConfigEntry)]) =
        some column' ∧
      column'.width = some MAX_COLUMN_WIDTH :=
  applyColumnConfig_width_always_max {} [(ConfigKey.index 0, sampleConfigEntry)]
    sampleConfigEntry 200 rfl (by decide) rfl

/-!  C10 and C2: the chart normalization loop. -/

/-- The chart loop over a constant finite array never changes the running
maximum and minimum and collects every element. -/
theorem chartForEach_constant (q : ℚ) :
    ∀ (n : Nat) (acc : List JSNum),
      chartForEach (JSNum.val q) (JSNum.val q) acc
          (List.replicate n (JSPrim.num (JSNum.val q))) =
        (JSNum.val q, JSNum.val q, acc ++ List.replicate n (JSNum.val q)) := by
  intro n
  induction n with
  | zero => intro acc; simp [chartForEach]
  | succ m ih =>
    intro acc
    have hlt : jlt (JSNum.val q) (JSNum.val q) = false := by
      simp [jlt]
    rw [List.replicate_succ]
    simp only [chartForEach, primToNum, jgt, hlt, JSNum.isNaN, if_false,
      Bool.false_eq_true]
    rw [ih (acc ++ [JSNum.val q])]
    simp [List.replicate_succ]

/-- C10: on every non-empty constant array whose common value lies above 1
or below 0, the normalization branch of fillChartCell divides zero by zero
for every element, so all returned sparkline values are NaN rather than
numbers in the unit interval. -/
theorem fillChartCell_constant_divzero :
    ∀ (l : List JSPrim) (q : ℚ), l ≠ [] →
      (∀ p ∈ l, p = JSPrim.num (JSNum.val q)) →
      (1 < q ∨ q < 0) →
      chartValues
          (fillChartCell (getCellTemplate ColumnType.lineChart false false)
            (JSVal.arr l)) =
        List.replicate l.length JSNum.nan := by
  intro l q hne hall hout
  have hl : l = List.replicate l.length (JSPrim.num (JSNum.val q)) :=
    List.eq_replicate_iff.mpr ⟨rfl, hall⟩
  obtain ⟨m, hm⟩ : ∃ m : Nat, l.length = m + 1 := by
    cases hlen : l.length with
    | zero => exact absurd (List.length_eq_zero.mp hlen) hne
    | succ m => exact ⟨m, rfl⟩
  have hcons : chartForEach (JSNum.val q) (JSNum.val q) []
      (JSPrim.num (JSNum.val q) :: List.replicate m (JSPrim.num (JSNum.val q))) =
      (JSNum.val q, JSNum.val q, List.replicate (m + 1) (JSNum.val q)) := by
    have h := chartForEach_constant q (m + 1) []
    rw [List.replicate_succ] at h
    simpa using h
  have hcond :
      (jgt (JSNum.val q) (JSNum.val 1) || jlt (JSNum.val q) (JSNum.val 0)) = true := by
    rcases hout with h | h
    · simp [jgt, jlt, h]
    · simp [jgt, jlt, h]
  have hdiv :
      jdiv (jsub (JSNum.val q) (JSNum.val q)) (jsub (JSNum.val q) (JSNum.val q)) =
        JSNum.nan := by
    simp [jsub, jdiv]
  rw [hl, hm]
  simp only [fillChartCell, notNullOrUndefined, Bool.not_true, Bool.false_eq_true,
    if_false, chartArray, List.replicate_succ, primToNum]
  rw [hcons]
  simp [hcond, hdiv, chartValues, List.map_replicate, List.replicate_succ]

/-- C10 witness: the constant singleton array with value 2 normalizes to a
single NaN. -/
theorem fillChartCell_constant_divzero_witness :
    chartValues
        (fillChartCell (getCellTemplate ColumnType.lineChart false false)
          (JSVal.arr [JSPrim.num (JSNum.val 2)])) =
      List.replicate (List.length [JSPrim.num (JSNum.val 2)]) JSNum.nan :=
  fillChartCell_constant_divzero [JSPrim.num (JSNum.val 2)] 2 (by decide)
    (by decide) (Or.inl (by norm_num))

/-- C2 evaluation at the failing input: the array containing the single
non-numeric string "foo" (whose numeric conversion is NaN) does not yield
an error cell, because the source's `return getErrorCell(...)` sits inside
the forEach callback and only exits the callback; the call returns an
ordinary sparkline cell whose values are empty (the NaN element is silently
dropped).  The non-array clause of the claim does hold: a plain string
yields an error cell. -/
theorem fillChartCell_nan_element_not_error :
    isErrorCell
        (fillChartCell (getCellTemplate ColumnType.lineChart false false)
          (JSVal.arr [JSPrim.str "foo"])) = false ∧
    (fillChartCell (getCellTemplate ColumnType.lineChart false false)
        (JSVal.arr [JSPrim.str "foo"])).kind = GridCellKind.custom ∧
    chartValues
        (fillChartCell (getCellTemplate ColumnType.lineChart false false)
          (JSVal.arr [JSPrim.str "foo"])) = [] ∧
    isErrorCell
        (fillChartCell (getCellTemplate ColumnType.lineChart false false)
          (JSVal.str "foo")) = true := by
  decide

/-- C3 witness: a present non-boolean string is rejected and a true boolean
is stored as is. -/
theorem fillBooleanCell_error_iff_witness :
    isErrorCell
        (fillBooleanCell (getCellTemplate ColumnType.boolean false false)
          (JSVal.str "x")) = true ∧
    fillBooleanCell (getCellTemplate ColumnType.boolean false false)
        (JSVal.bool true) =
      { getCellTemplate ColumnType.boolean false false with
        data := CellData.prim (JSVal.bool true) } :=
  ⟨(fillBooleanCell_error_iff false false (JSVal.str "x")).1.mpr (by decide),
   (fillBooleanCell_error_iff false false (JSVal.bool true)).2 true⟩

/-- C7 witness: the refinement instantiated at one quiver name and one
configuration name. -/
theorem columnType_inference_spec_witness :
    getColumnTypeFromQuiver { typeName := some "bool" } =
      specQuiverColumnType (some "bool") ∧
    getColumnTypeFromConfig (some "number") = specConfigColumnType (some "number") :=
  ⟨columnType_inference_spec.1 { typeName := some "bool" },
   columnType_inference_spec.2 (some "number")⟩

/-- C8 witness: one concrete edit leaves the sample table and columns
untouched. -/
theorem onCellEdited_preserves_source_witness :
    (onCellEdited sampleState 0 0 sampleEditCell).data = sampleState.data ∧
    (onCellEdited sampleState 0 0 sampleEditCell).columns = sampleState.columns :=
  onCellEdited_preserves_source sampleState 0 0 sampleEditCell
